import Mathlib

/-!
Shallow embedding of the endless-runner game's score/level/leaderboard logic.

Sources embedded here:
* `src/features/CloudManager.js`, class `ScoreManager` (persistence layer over
  `localStorage`: current score, high score, leaderboard array).
* `src/game.js`, class `GameScene` of the module-split variant
  (lines ~3185-3880): the per-frame `update` loop, level-up, coin collection,
  obstacle collision, game over, and revive handling.

Modelling conventions:
* `localStorage` string slots are modelled as `Option String` (a missing key is
  `none`); the JSON-decoded leaderboard slot is modelled by `StoredJSON`, which
  distinguishes a missing key, a string that fails to `JSON.parse`, and a
  successfully parsed entry array.
* JS numbers that only ever hold integers (score, level, spawn delay) are
  modelled as `Nat` / `Int`; the speed accumulator, which adds the fractional
  increment 0.005 per frame, is modelled as an exact rational (`ℚ`), with the
  increment `1/200`.
* `Array.prototype.sort` with comparator `(a, b) => b.score - a.score` is a
  stable descending sort by score; it is modelled by a stable insertion sort.
* Framework-side sprite lifecycle (creating/destroying Phaser game objects,
  tweens, textures, UI text) is not part of the embedded state; the embedded
  state keeps the fields the game logic reads and writes (score, level, speed,
  spawn delay, flags, player position, physics/timer pause switches).
* Randomness (`Phaser.Math.Between(1, 100)`) and the wall-clock date string
  (`new Date().toLocaleDateString()`) enter the transition functions as
  explicit parameters.
-/

namespace EndlessRunner

/-! ### GAME_CONFIG (src/game.js lines 56-91) -/

/-- Model of `GAME_CONFIG.INITIAL_SPEED` (150). -/
def INITIAL_SPEED : ℚ := 150

/-- Model of `GAME_CONFIG.INITIAL_SPAWN_DELAY` (1500 ms). -/
def INITIAL_SPAWN_DELAY : ℤ := 1500

/-- Model of `GAME_CONFIG.SPEED_INCREMENT` (0.005 per frame, modelled exactly as `1/200`). -/
def SPEED_INCREMENT : ℚ := 1 / 200

/-- Model of `GAME_CONFIG.LEVEL_SPEED_BONUS` (20). -/
def LEVEL_SPEED_BONUS : ℚ := 20

/-- Model of `GAME_CONFIG.SPAWN_DELAY_REDUCTION` (150 ms per level). -/
def SPAWN_DELAY_REDUCTION : ℤ := 150

/-- Model of `GAME_CONFIG.MIN_SPAWN_DELAY` (500 ms). -/
def MIN_SPAWN_DELAY : ℤ := 500

/-- Model of `GAME_CONFIG.SCORE_PER_COIN` (10). -/
def SCORE_PER_COIN : ℕ := 10

/-- Model of `GAME_CONFIG.SCORE_PER_LEVEL` (100). -/
def SCORE_PER_LEVEL : ℕ := 100

/-- Model of `GAME_CONFIG.REVIVE_CHANCE` (20, a percentage). -/
def REVIVE_CHANCE : ℕ := 20

/-- Model of `GAME_CONFIG.PLAYER_START_X` (100). -/
def PLAYER_START_X : ℤ := 100

/-- Model of `GAME_CONFIG.PLAYER_START_Y` (300). -/
def PLAYER_START_Y : ℤ := 300

/-! ### Leaderboard entries -/

/-- One leaderboard entry, as built by `ScoreManager.addToLeaderboard`
(`src/features/CloudManager.js` lines 225-230): an object with `score`, `date`,
`level` and `username` fields. -/
structure Entry where
  score : ℕ
  date : String
  level : ℕ
  username : String
  deriving DecidableEq, Repr

namespace ScoreManager

/-- The JS expression `username || 'Anonymous'`
(`src/features/CloudManager.js` line 229). A `null`/`undefined` argument is
modelled as `none`; the only falsy JS string is the empty string. -/
def usernameOrAnonymous : Option String → String
  | none => "Anonymous"
  | some s => if s = "" then "Anonymous" else s

/-- Insert an entry into a descending-by-score sorted list, after every entry
with a strictly larger score and after earlier entries with an equal score.
Together with `sortByScoreDesc` this models the stable JS
`leaderboard.sort((a, b) => b.score - a.score)`
(`src/features/CloudManager.js` line 235). -/
def insertEntry (e : Entry) : List Entry → List Entry
  | [] => [e]
  | x :: xs => if e.score < x.score then x :: insertEntry e xs else e :: x :: xs

/-- Stable insertion sort descending by `score`: the model of
`Array.prototype.sort` with comparator `(a, b) => b.score - a.score`. -/
def sortByScoreDesc : List Entry → List Entry
  | [] => []
  | x :: xs => insertEntry x (sortByScoreDesc xs)

/-- The `newEntry` object literal of `ScoreManager.addToLeaderboard`
(`src/features/CloudManager.js` lines 225-230). -/
def mkEntry (score level : ℕ) (username : Option String) (date : String) : Entry :=
  { score := score, date := date, level := level,
    username := usernameOrAnonymous username }

/-- Model of `ScoreManager.addToLeaderboard(score, level, username)`
(`src/features/CloudManager.js` lines 223-243): push a new entry
`{score, date, level, username: username || 'Anonymous'}`, sort by score
descending, and if more than 100 entries remain, `splice(100)` (keep the first
100).  The current leaderboard and the date string are explicit parameters. -/
def addToLeaderboard (lb : List Entry) (score level : ℕ) (username : Option String)
    (date : String) : List Entry :=
  let newEntry := mkEntry score level username date
  let sorted := sortByScoreDesc (lb ++ [newEntry])
  if sorted.length > 100 then sorted.take 100 else sorted

/-- The JSON-decoded `localStorage.getItem('leaderboard')` slot:
`absent` models a missing key (`getItem` returns `null`, and
`JSON.parse(null) || []` yields `[]`); `malformed` models a stored string on
which `JSON.parse` throws; `parsed l` models a stored JSON array decoding to
the entry list `l`. -/
inductive StoredJSON where
  | absent
  | malformed
  | parsed (entries : List Entry)
  deriving DecidableEq, Repr

/-- Model of `ScoreManager.getLeaderboard()` (`src/features/CloudManager.js`
lines 245-252): `try { return JSON.parse(getItem('leaderboard')) || [] }
catch { return [] }`. -/
def getLeaderboard : StoredJSON → List Entry
  | .absent => []
  | .malformed => []
  | .parsed l => l

/-- Model of `ScoreManager.updateLeaderboardUsernames(oldUsername, newUsername)`
(`src/features/CloudManager.js` lines 258-272): for each entry, if
`entry.username === oldUsername` overwrite `entry.username = newUsername`,
leaving every other field alone; the (possibly unchanged) array is what ends
up persisted. -/
def updateLeaderboardUsernames (lb : List Entry) (oldUsername newUsername : String) :
    List Entry :=
  lb.map fun e => if e.username = oldUsername then { e with username := newUsername } else e

/-- Accumulator loop for the leading decimal-digit run of JS `parseInt`. -/
def parseIntDigits : List Char → ℕ → ℕ
  | [], acc => acc
  | c :: rest, acc =>
    if c.isDigit then parseIntDigits rest (acc * 10 + (c.toNat - Char.toNat '0'))
    else acc

/-- JS `parseInt(s)` restricted to base-10 inputs: skip leading whitespace,
read an optional sign, then a leading digit run; `none` models `NaN` (no
leading digit). -/
def parseIntJS (s : String) : Option ℤ :=
  let cs := s.toList.dropWhile Char.isWhitespace
  match cs with
  | '-' :: rest =>
    match rest with
    | c :: _ => if c.isDigit then some (-(parseIntDigits rest 0 : ℤ)) else none
    | [] => none
  | '+' :: rest =>
    match rest with
    | c :: _ => if c.isDigit then some (parseIntDigits rest 0 : ℤ) else none
    | [] => none
  | c :: _ => if c.isDigit then some (parseIntDigits cs 0 : ℤ) else none
  | [] => none

/-- Model of `ScoreManager.getCurrentScore()` (`src/features/CloudManager.js`
lines 198-200): `parseInt(getItem('currentScore')) || 0`; a missing key or a
`NaN` parse yields 0. -/
def getCurrentScore (slot : Option String) : ℤ :=
  match slot with
  | none => 0
  | some s =>
    match parseIntJS s with
    | none => 0
    | some n => n

/-- Model of `ScoreManager.getHighScore()` (`src/features/CloudManager.js`
lines 206-208): `parseInt(getItem('highScore')) || 0`. -/
def getHighScore (slot : Option String) : ℤ :=
  match slot with
  | none => 0
  | some s =>
    match parseIntJS s with
    | none => 0
    | some n => n

end ScoreManager

/-! ### GameScene (src/game.js, module-split variant, lines ~3185-3880) -/

/-- The two coin variants spawned by `GameScene.spawnCoin`
(texture keys `'coin'` and `'coin_revive'`). -/
inductive CoinKind where
  | ordinary
  | revive
  deriving DecidableEq, Repr

/-- The game-logic state of `GameScene` (initialised in
`initializeGameState`, `src/game.js` lines 3191-3214) together with the
persisted values it reads and writes through the manager singletons:
the leaderboard array, the high score, the settings username
(`SettingsManager.getUsername()` returns `getItem('username') || ''`, so it is
a plain string, possibly empty), the games-played counter and the ads-enabled
flag.  `physicsRunning` and `spawnTimerPaused` model `this.physics`
pause/resume and `this.spawnTimer.paused`; `playerX`/`playerY` model the
player sprite position as set by `setPosition`. -/
structure GameState where
  score : ℕ
  level : ℕ
  speed : ℚ
  spawnDelay : ℤ
  gameStarted : Bool
  gameOver : Bool
  isPaused : Bool
  reviveGivenThisLevel : Bool
  /-- Model of `this.powerUps.revive` -/
  reviveToken : Bool
  highScore : ℕ
  leaderboard : List Entry
  username : String
  gamePlayCount : ℕ
  adsEnabled : Bool
  playerX : ℤ
  playerY : ℤ
  physicsRunning : Bool
  spawnTimerPaused : Bool
  deriving DecidableEq, Repr

namespace GameScene

/-- Model of `GameScene.levelUp(newLevel)` (`src/game.js` lines 3843-3851):
set `level = newLevel`, add `LEVEL_SPEED_BONUS * (level - 1)` to the speed,
set the spawn delay to
`max(MIN_SPAWN_DELAY, INITIAL_SPAWN_DELAY - (level - 1) * SPAWN_DELAY_REDUCTION)`
(also copied into the spawn timer), and clear `reviveGivenThisLevel`. -/
def levelUp (s : GameState) (newLevel : ℕ) : GameState :=
  { s with
    level := newLevel
    speed := s.speed + LEVEL_SPEED_BONUS * ((newLevel : ℚ) - 1)
    spawnDelay := max MIN_SPAWN_DELAY
      (INITIAL_SPAWN_DELAY - ((newLevel : ℤ) - 1) * SPAWN_DELAY_REDUCTION)
    reviveGivenThisLevel := false }

/-- Model of `GameScene.update()` (`src/game.js` lines 3392-3423): bail out unless the
game is started, not over and not paused; add `SPEED_INCREMENT` to the speed;
recompute `newLevel = Math.floor(score / SCORE_PER_LEVEL) + 1` and call
`levelUp` when it exceeds the current level.  The per-sprite obstacle/coin
velocity updates and the ground-contact double-jump reset act on framework
physics objects outside the embedded state. -/
def update (s : GameState) : GameState :=
  if !s.gameStarted || s.gameOver || s.isPaused then s
  else
    let s1 := { s with speed := s.speed + SPEED_INCREMENT }
    let newLevel := s1.score / SCORE_PER_LEVEL + 1
    if newLevel > s1.level then levelUp s1 newLevel else s1

/-- Model of `GameScene.performStartGame()` (`src/game.js` lines 3445-3458): resume
physics, unpause the spawn timer, and clear the revive power-up. -/
def performStartGame (s : GameState) : GameState :=
  { s with physicsRunning := true, spawnTimerPaused := false, reviveToken := false }

/-- Model of `GameScene.startGame()` (`src/game.js` lines 3424-3443): set
`gameStarted = true`, reset the score to 0 (also persisted), increment the
games-played counter, and either show the ad popup (every third play with ads
enabled; `performStartGame` is then deferred to the popup) or start at once. -/
def startGame (s : GameState) : GameState :=
  let s1 := { s with gameStarted := true, score := 0, gamePlayCount := s.gamePlayCount + 1 }
  if s1.adsEnabled ∧ s1.gamePlayCount % 3 = 0 then s1
  else performStartGame s1

/-- Model of `GameScene.grantRevivePowerUp()` (`src/game.js` lines 3837-3841):
set `this.powerUps.revive = true` (the UI text and button visibility are
presentation only). -/
def grantRevivePowerUp (s : GameState) : GameState :=
  { s with reviveToken := true }

/-- Model of `GameScene.collectCoin(player, coin)` (`src/game.js` lines 3816-3835):
destroy the coin sprite, add `SCORE_PER_COIN` to the score (also persisted via
`setCurrentScore`), raise the high score when exceeded (persisted via
`setHighScore`), and grant the revive power-up when the coin texture is
`'coin_revive'`. -/
def collectCoin (s : GameState) (kind : CoinKind) : GameState :=
  let s1 := { s with score := s.score + SCORE_PER_COIN }
  let s2 := if s1.score > s1.highScore then { s1 with highScore := s1.score } else s1
  if kind = CoinKind.revive then grantRevivePowerUp s2 else s2

/-- Model of `GameScene.saveScoreToLeaderboard()` (`src/game.js` lines 3853-3858):
return unchanged when `score <= 0`; otherwise pass the score, level, and the
settings username to `ScoreManager.addToLeaderboard`.  The date string of the
new entry is an explicit parameter. -/
def saveScoreToLeaderboard (s : GameState) (date : String) : List Entry :=
  if s.score ≤ 0 then s.leaderboard
  else ScoreManager.addToLeaderboard s.leaderboard s.score s.level (some s.username) date

/-- Model of `GameScene.handleNormalGameOver()` (`src/game.js` lines 3493-3517):
set `gameOver = true`, pause physics and the spawn timer, save the score to the
leaderboard, raise the high score when exceeded, and clear the revive
power-up. -/
def handleNormalGameOver (s : GameState) (date : String) : GameState :=
  { s with
    gameOver := true
    physicsRunning := false
    spawnTimerPaused := true
    leaderboard := saveScoreToLeaderboard s date
    highScore := if s.score > s.highScore then s.score else s.highScore
    reviveToken := false }

/-- Model of `GameScene.handleReviveGameOver()` (`src/game.js` lines 3478-3491):
set `gameOver = true` and pause physics and the spawn timer; the score, high
score and leaderboard are not touched. -/
def handleReviveGameOver (s : GameState) : GameState :=
  { s with gameOver := true, physicsRunning := false, spawnTimerPaused := true }

/-- Model of `GameScene.hitObstacle()` (`src/game.js` lines 3470-3476): dispatch to the
revive flow when a revive token is held, else to the normal game-over flow. -/
def hitObstacle (s : GameState) (date : String) : GameState :=
  if s.reviveToken then handleReviveGameOver s else handleNormalGameOver s date

/-- Model of `GameScene.useRevive()` (`src/game.js` lines 3519-3538): no-op without a
revive token; otherwise clear `gameOver`, consume the token, move the player
to `(PLAYER_START_X, 200)`, zero its velocity, resume physics and unpause the
spawn timer. -/
def useRevive (s : GameState) : GameState :=
  if !s.reviveToken then s
  else
    { s with
      gameOver := false
      reviveToken := false
      playerX := PLAYER_START_X
      playerY := 200
      physicsRunning := true
      spawnTimerPaused := false }

/-- Model of `GameScene.spawnCoin()` (`src/game.js` lines 3573-3632): when
`reviveGivenThisLevel` is unset and the random roll `Phaser.Math.Between(1,100)`
(the `roll` parameter) is at most `REVIVE_CHANCE`, create a `'coin_revive'`
coin and set `reviveGivenThisLevel = true`; otherwise create an ordinary
`'coin'`.  The coin's screen position and tween are framework-side; the
returned `CoinKind` records which texture was spawned. -/
def spawnCoin (s : GameState) (roll : ℕ) : GameState × CoinKind :=
  if !s.reviveGivenThisLevel ∧ roll ≤ REVIVE_CHANCE then
    ({ s with reviveGivenThisLevel := true }, CoinKind.revive)
  else
    (s, CoinKind.ordinary)

/-- Collect `n` ordinary coins in sequence (iterated `collectCoin` with the
`'coin'` texture). -/
def collectOrdinaryCoins : ℕ → GameState → GameState
  | 0, s => s
  | n + 1, s => collectOrdinaryCoins n (collectCoin s CoinKind.ordinary)

end GameScene

/-! ### Helper lemmas about the leaderboard sort -/

/-- The descending-by-score order on entries: `a` may precede `b`. -/
def byScoreDesc (a b : Entry) : Prop := b.score ≤ a.score

theorem insertEntry_perm (e : Entry) (l : List Entry) :
    List.Perm (ScoreManager.insertEntry e l) (e :: l) := by
  induction l with
  | nil => simp [ScoreManager.insertEntry]
  | cons x xs ih =>
    by_cases h : e.score < x.score
    · simp only [ScoreManager.insertEntry, if_pos h]
      exact (ih.cons x).trans (List.Perm.swap e x xs)
    · simp [ScoreManager.insertEntry, if_neg h]

theorem sortByScoreDesc_perm (l : List Entry) :
    List.Perm (ScoreManager.sortByScoreDesc l) l := by
  induction l with
  | nil => simp [ScoreManager.sortByScoreDesc]
  | cons x xs ih =>
    simp only [ScoreManager.sortByScoreDesc]
    exact (insertEntry_perm x _).trans (ih.cons x)

theorem length_sortByScoreDesc (l : List Entry) :
    (ScoreManager.sortByScoreDesc l).length = l.length :=
  (sortByScoreDesc_perm l).length_eq

theorem sorted_insertEntry (e : Entry) {l : List Entry}
    (h : List.Sorted byScoreDesc l) :
    List.Sorted byScoreDesc (ScoreManager.insertEntry e l) := by
  induction l with
  | nil => simp [ScoreManager.insertEntry, byScoreDesc]
  | cons x xs ih =>
    rw [List.sorted_cons] at h
    obtain ⟨hx, hxs⟩ := h
    by_cases hcmp : e.score < x.score
    · simp only [ScoreManager.insertEntry, if_pos hcmp]
      rw [List.sorted_cons]
      refine ⟨?_, ih hxs⟩
      intro b hb
      have hb2 : b = e ∨ b ∈ xs := by
        have := (insertEntry_perm e xs).mem_iff.mp hb
        simpa using this
      rcases hb2 with rfl | hbxs
      · exact le_of_lt hcmp
      · exact hx b hbxs
    · simp only [ScoreManager.insertEntry, if_neg hcmp]
      rw [List.sorted_cons]
      refine ⟨?_, List.sorted_cons.mpr ⟨hx, hxs⟩⟩
      intro b hb
      rcases List.mem_cons.mp hb with rfl | hbxs
      · exact le_of_not_lt hcmp
      · exact le_trans (hx b hbxs) (le_of_not_lt hcmp)

theorem sorted_sortByScoreDesc (l : List Entry) :
    List.Sorted byScoreDesc (ScoreManager.sortByScoreDesc l) := by
  induction l with
  | nil => simp [ScoreManager.sortByScoreDesc]
  | cons x xs ih =>
    simpa only [ScoreManager.sortByScoreDesc] using sorted_insertEntry x ih

theorem sorted_take {l : List Entry} (n : ℕ)
    (h : List.Sorted byScoreDesc l) :
    List.Sorted byScoreDesc (l.take n) :=
  List.Pairwise.sublist (List.take_sublist n l) h

theorem addToLeaderboard_length_le (lb : List Entry) (score level : ℕ)
    (u : Option String) (date : String) :
    (ScoreManager.addToLeaderboard lb score level u date).length ≤ 100 := by
  simp only [ScoreManager.addToLeaderboard]
  split
  · simp
  · omega

theorem addToLeaderboard_sorted (lb : List Entry) (score level : ℕ)
    (u : Option String) (date : String) :
    List.Sorted byScoreDesc (ScoreManager.addToLeaderboard lb score level u date) := by
  simp only [ScoreManager.addToLeaderboard]
  split
  · exact sorted_take 100 (sorted_sortByScoreDesc _)
  · exact sorted_sortByScoreDesc _

theorem addToLeaderboard_perm_of_small {lb : List Entry} (score level : ℕ)
    (u : Option String) (date : String) (h : lb.length ≤ 99) :
    List.Perm (ScoreManager.addToLeaderboard lb score level u date)
      (lb ++ [ScoreManager.mkEntry score level u date]) := by
  have hlen : (ScoreManager.sortByScoreDesc
      (lb ++ [ScoreManager.mkEntry score level u date])).length = lb.length + 1 := by
    rw [length_sortByScoreDesc]; simp
  simp only [ScoreManager.addToLeaderboard]
  rw [if_neg (by omega)]
  exact sortByScoreDesc_perm _

/-! ### Concrete data used by witnesses and counterexamples -/

/-- A concrete leaderboard entry with score 50. -/
def entry50 : Entry :=
  { score := 50, date := "1/1/2024", level := 1, username := "A" }

/-- A concrete two-entry leaderboard. -/
def lbTwo : List Entry :=
  [{ score := 5, date := "d", level := 1, username := "alice" },
   { score := 3, date := "d", level := 2, username := "bob" }]

/-! ### Claims -/

/-- C1, counterexample: calling `ScoreManager.addToLeaderboard` on a
leaderboard that already has 10 entries leaves 11 entries persisted, so the
persisted leaderboard is not truncated to the top 10 as the claim states.
(The code keeps the top 100, not the top 10.) -/
theorem claim_C1_counterexample :
    ¬ (ScoreManager.addToLeaderboard (List.replicate 10 entry50) 40 1
        (some "B") "1/1/2024").length ≤ 10 := by
  decide

/-- C1, amended: after every call to `ScoreManager.addToLeaderboard`, the
persisted leaderboard is sorted in descending order by score and contains at
most 100 entries: the call appends the new entry, sorts all entries by score
descending, and truncates to the top 100. -/
theorem claim_C1_amended (lb : List Entry) (score level : ℕ) (u : Option String)
    (date : String) :
    List.Sorted byScoreDesc (ScoreManager.addToLeaderboard lb score level u date) ∧
    (ScoreManager.addToLeaderboard lb score level u date).length ≤ 100 ∧
    List.Perm (ScoreManager.addToLeaderboard lb score level u date)
      ((ScoreManager.sortByScoreDesc (lb ++ [ScoreManager.mkEntry score level u date])).take 100) :=
  ⟨addToLeaderboard_sorted lb score level u date,
   addToLeaderboard_length_le lb score level u date,
   by
    simp only [ScoreManager.addToLeaderboard]
    split
    · exact List.Perm.refl _
    · rw [List.take_of_length_le (by omega)]⟩

/-- C8: renaming the user rewrites the `username` field of every persisted
leaderboard entry whose username equals the old value, and leaves every
non-matching entry, every other field (score, level, date) of every entry,
and the order of the entries unchanged. -/
theorem claim_C8 (lb : List Entry) (oldU newU : String) :
    (ScoreManager.updateLeaderboardUsernames lb oldU newU).length = lb.length ∧
    (∀ i : ℕ, (ScoreManager.updateLeaderboardUsernames lb oldU newU)[i]? =
      (lb[i]?).map fun e =>
        if e.username = oldU then { e with username := newU } else e) ∧
    (∀ i : ℕ,
      ((ScoreManager.updateLeaderboardUsernames lb oldU newU)[i]?).map Entry.score =
        (lb[i]?).map Entry.score ∧
      ((ScoreManager.updateLeaderboardUsernames lb oldU newU)[i]?).map Entry.level =
        (lb[i]?).map Entry.level ∧
      ((ScoreManager.updateLeaderboardUsernames lb oldU newU)[i]?).map Entry.date =
        (lb[i]?).map Entry.date) ∧
    (∀ (i : ℕ) (e : Entry), lb[i]? = some e → e.username ≠ oldU →
      (ScoreManager.updateLeaderboardUsernames lb oldU newU)[i]? = some e) ∧
    (∀ (i : ℕ) (e : Entry), lb[i]? = some e → e.username = oldU →
      (ScoreManager.updateLeaderboardUsernames lb oldU newU)[i]? =
        some { e with username := newU }) := by
  refine ⟨by simp [ScoreManager.updateLeaderboardUsernames], ?_, ?_, ?_, ?_⟩
  · intro i
    simp [ScoreManager.updateLeaderboardUsernames]
  · intro i
    cases h : lb[i]? with
    | none => simp [ScoreManager.updateLeaderboardUsernames, h]
    | some e =>
      by_cases hu : e.username = oldU <;>
        simp [ScoreManager.updateLeaderboardUsernames, h, hu]
  · intro i e he hne
    simp [ScoreManager.updateLeaderboardUsernames, he, hne]
  · intro i e he hu
    simp [ScoreManager.updateLeaderboardUsernames, he, hu]

/-- C8 witness: on a concrete two-entry board, renaming alice to carol leaves
the non-matching second entry untouched and rewrites the first entry. -/
theorem claim_C8_witness :
    lbTwo[1]? = some { score := 3, date := "d", level := 2, username := "bob" } ∧
    ({ score := 3, date := "d", level := 2, username := "bob" } : Entry).username ≠ "alice" ∧
    (ScoreManager.updateLeaderboardUsernames lbTwo "alice" "carol")[1]? =
      some { score := 3, date := "d", level := 2, username := "bob" } ∧
    (ScoreManager.updateLeaderboardUsernames lbTwo "alice" "carol")[0]? =
      some { score := 5, date := "d", level := 1, username := "carol" } :=
  ⟨rfl, by decide,
   (claim_C8 lbTwo "alice" "carol").2.2.2.1 1
     { score := 3, date := "d", level := 2, username := "bob" } rfl (by decide),
   (claim_C8 lbTwo "alice" "carol").2.2.2.2 0
     { score := 5, date := "d", level := 1, username := "alice" } rfl rfl⟩

/-- C9: reads of persisted state fall back to hardcoded defaults:
`getLeaderboard` returns the empty list when the stored leaderboard JSON is
missing or fails to parse, and `getHighScore` and `getCurrentScore` return 0
when the stored value is missing or does not parse to a number. -/
theorem claim_C9 :
    ScoreManager.getLeaderboard ScoreManager.StoredJSON.absent = [] ∧
    ScoreManager.getLeaderboard ScoreManager.StoredJSON.malformed = [] ∧
    ScoreManager.getHighScore none = 0 ∧
    ScoreManager.getCurrentScore none = 0 ∧
    (∀ s : String, ScoreManager.parseIntJS s = none →
      ScoreManager.getHighScore (some s) = 0 ∧
      ScoreManager.getCurrentScore (some s) = 0) := by
  refine ⟨rfl, rfl, rfl, rfl, ?_⟩
  intro s hs
  exact ⟨by simp [ScoreManager.getHighScore, hs], by simp [ScoreManager.getCurrentScore, hs]⟩

/-- C9 witness: the concrete stored string "oops" does not parse as a number
and both score reads fall back to 0. -/
theorem claim_C9_witness :
    ScoreManager.parseIntJS "oops" = none ∧
    ScoreManager.getHighScore (some "oops") = 0 ∧
    ScoreManager.getCurrentScore (some "oops") = 0 :=
  ⟨by decide, (claim_C9.2.2.2.2 "oops" (by decide)).1,
   (claim_C9.2.2.2.2 "oops" (by decide)).2⟩

/-- C10: when `addToLeaderboard` is called with an empty, null, or undefined
username, the new leaderboard entry's username field is the string
"Anonymous"; a non-empty username is stored as given.  (The entry itself lands
in the persisted leaderboard whenever fewer than 100 entries were stored.) -/
theorem claim_C10 (lb : List Entry) (score level : ℕ) (date : String) :
    ScoreManager.usernameOrAnonymous none = "Anonymous" ∧
    ScoreManager.usernameOrAnonymous (some "") = "Anonymous" ∧
    (∀ s : String, s ≠ "" → ScoreManager.usernameOrAnonymous (some s) = s) ∧
    (∀ u : Option String, (ScoreManager.mkEntry score level u date).username =
      ScoreManager.usernameOrAnonymous u) ∧
    (∀ u : Option String, lb.length ≤ 99 →
      ScoreManager.mkEntry score level u date ∈
        ScoreManager.addToLeaderboard lb score level u date) := by
  refine ⟨rfl, rfl, ?_, fun u => rfl, ?_⟩
  · intro s hs
    simp [ScoreManager.usernameOrAnonymous, hs]
  · intro u h
    exact (addToLeaderboard_perm_of_small score level u date h).mem_iff.mpr (by simp)

/-- C10 witness: adding a score with a null username to an empty leaderboard
stores an entry whose username is "Anonymous". -/
theorem claim_C10_witness :
    ("Anon" : String) ≠ "" ∧
    ScoreManager.usernameOrAnonymous (some "Anon") = "Anon" ∧
    (([] : List Entry).length ≤ 99) ∧
    ScoreManager.mkEntry 5 1 none "d" ∈ ScoreManager.addToLeaderboard [] 5 1 none "d" :=
  ⟨by decide, (claim_C10 [] 5 1 "d").2.2.1 "Anon" (by decide), by decide,
   (claim_C10 [] 5 1 "d").2.2.2.2 none (by decide)⟩

/-- A concrete running game state used to instantiate the game-loop claims. -/
def gsBase : GameState :=
  { score := 0, level := 1, speed := INITIAL_SPEED, spawnDelay := INITIAL_SPAWN_DELAY,
    gameStarted := true, gameOver := false, isPaused := false,
    reviveGivenThisLevel := false, reviveToken := false,
    highScore := 0, leaderboard := [], username := "bob",
    gamePlayCount := 1, adsEnabled := false,
    playerX := PLAYER_START_X, playerY := PLAYER_START_Y,
    physicsRunning := true, spawnTimerPaused := false }

/-- The base state with score 100, one tick away from levelling up. -/
def gsLvl : GameState := { gsBase with score := 100 }

/-- The base state with score 10, high score 99, and a full 100-entry
leaderboard of score-50 entries. -/
def gsFull : GameState :=
  { gsBase with score := 10, highScore := 99, leaderboard := List.replicate 100 entry50 }

/-- The base state with score 45 and high score 20. -/
def gs45 : GameState := { gsBase with score := 45, highScore := 20 }

/-- The base state with score 45, high score 50, and a revive token held. -/
def gsTok : GameState := { gsBase with score := 45, highScore := 50, reviveToken := true }

/-- The base state with the per-level revive flag already set. -/
def gsFlag : GameState := { gsBase with reviveGivenThisLevel := true }

/-- Helper: collecting a coin of any kind adds `SCORE_PER_COIN` to the score. -/
theorem score_collectCoin (t : GameState) (k : CoinKind) :
    (GameScene.collectCoin t k).score = t.score + SCORE_PER_COIN := by
  simp only [GameScene.collectCoin, GameScene.grantRevivePowerUp]
  split <;> split <;> rfl

/-- Helper for C5: iterating `collectCoin` on ordinary coins adds
`SCORE_PER_COIN` per coin. -/
theorem score_collectOrdinaryCoins (n : ℕ) (t : GameState) :
    (GameScene.collectOrdinaryCoins n t).score = t.score + n * SCORE_PER_COIN := by
  induction n generalizing t with
  | zero => simp [GameScene.collectOrdinaryCoins]
  | succ m ih =>
    rw [GameScene.collectOrdinaryCoins, ih, score_collectCoin]
    ring

/-- C2: on a running update tick the level is recomputed as
`score / SCORE_PER_LEVEL + 1`; when that exceeds the current level the
level-up handler runs once for the transition, adding
`LEVEL_SPEED_BONUS * (newLevel - 1)` to the speed on top of the per-tick
increment and setting the spawn delay to the initial delay minus a fixed step
per level gained, floored at the configured minimum; otherwise the level,
spawn delay and revive flag are untouched.  The final conjunct shows the new
level equals `max level newLevel`, so the same transition cannot fire again on
a later tick with the same score. -/
theorem claim_C2 (s : GameState) (h1 : s.gameStarted = true) (h2 : s.gameOver = false)
    (h3 : s.isPaused = false) :
    (s.score / SCORE_PER_LEVEL + 1 > s.level →
      (GameScene.update s).level = s.score / SCORE_PER_LEVEL + 1 ∧
      (GameScene.update s).speed = s.speed + SPEED_INCREMENT +
        LEVEL_SPEED_BONUS * (((s.score / SCORE_PER_LEVEL + 1 : ℕ) : ℚ) - 1) ∧
      (GameScene.update s).spawnDelay = max MIN_SPAWN_DELAY
        (INITIAL_SPAWN_DELAY -
          (((s.score / SCORE_PER_LEVEL + 1 : ℕ) : ℤ) - 1) * SPAWN_DELAY_REDUCTION) ∧
      (GameScene.update s).reviveGivenThisLevel = false) ∧
    (¬ s.score / SCORE_PER_LEVEL + 1 > s.level →
      (GameScene.update s).level = s.level ∧
      (GameScene.update s).speed = s.speed + SPEED_INCREMENT ∧
      (GameScene.update s).spawnDelay = s.spawnDelay ∧
      (GameScene.update s).reviveGivenThisLevel = s.reviveGivenThisLevel) ∧
    (GameScene.update s).level = max s.level (s.score / SCORE_PER_LEVEL + 1) := by
  by_cases hgt : s.score / SCORE_PER_LEVEL + 1 > s.level
  · have hmax : max s.level (s.score / SCORE_PER_LEVEL + 1) =
        s.score / SCORE_PER_LEVEL + 1 := Nat.max_eq_right (Nat.le_of_lt hgt)
    refine ⟨fun _ => ?_, fun hn => absurd hgt hn, ?_⟩
    · refine ⟨?_, ?_, ?_, ?_⟩ <;>
        simp [GameScene.update, GameScene.levelUp, h1, h2, h3, hgt]
    · simp [GameScene.update, GameScene.levelUp, h1, h2, h3, hgt, hmax]
  · have hmax : max s.level (s.score / SCORE_PER_LEVEL + 1) = s.level :=
      Nat.max_eq_left (Nat.le_of_not_lt hgt)
    refine ⟨fun hg => absurd hg hgt, fun _ => ?_, ?_⟩
    · refine ⟨?_, ?_, ?_, ?_⟩ <;> simp [GameScene.update, h1, h2, h3, hgt]
    · simp [GameScene.update, h1, h2, h3, hgt, hmax]

/-- C2 witness: a running state with score 100 at level 1 levels up to 2,
gaining the 20-point speed bonus on top of the 1/200 tick increment and
dropping the spawn delay from 1500 to 1350. -/
theorem claim_C2_witness :
    gsLvl.gameStarted = true ∧ gsLvl.gameOver = false ∧ gsLvl.isPaused = false ∧
    gsLvl.score / SCORE_PER_LEVEL + 1 > gsLvl.level ∧
    (GameScene.update gsLvl).level = 2 ∧
    (GameScene.update gsLvl).speed = 150 + 1 / 200 + 20 ∧
    (GameScene.update gsLvl).spawnDelay = 1350 ∧
    (GameScene.update gsLvl).reviveGivenThisLevel = false := by
  have h := (claim_C2 gsLvl rfl rfl rfl).1 (by decide)
  obtain ⟨ha, hb, hc, hd⟩ := h
  refine ⟨rfl, rfl, rfl, by decide, ?_, ?_, ?_, hd⟩
  · rw [ha]; decide
  · rw [hb]
    norm_num [gsLvl, gsBase, SCORE_PER_LEVEL, SPEED_INCREMENT, LEVEL_SPEED_BONUS,
      INITIAL_SPEED]
  · rw [hc]
    norm_num [gsLvl, gsBase, SCORE_PER_LEVEL, MIN_SPAWN_DELAY, INITIAL_SPAWN_DELAY,
      SPAWN_DELAY_REDUCTION]

/-- C3, counterexample: with 100 entries already stored and a positive score
of 10 lower than every stored score, a no-revive obstacle hit does not add the
new entry to the persisted leaderboard (the sort-and-truncate at 100 drops
it), so the claim that exactly one entry is appended on every positive-score
game-over fails. -/
theorem claim_C3_counterexample :
    gsFull.reviveToken = false ∧
    0 < gsFull.score ∧
    ¬ (ScoreManager.mkEntry 10 1 (some "bob") "1/1/2024" ∈
        (GameScene.hitObstacle gsFull "1/1/2024").leaderboard) := by
  refine ⟨rfl, by decide, ?_⟩
  decide

/-- C3, amended: on an obstacle overlap with no revive token the game enters
the game-over state; if the score is positive and fewer than 100 entries are
stored, exactly one entry with the score, level, username and date is added
to the persisted leaderboard (with 100 entries stored, the sort-and-truncate
to 100 may instead drop the lowest entry, which can be the new one); the high
score is set to the score iff it exceeds the previous high score; and a zero
score leaves the leaderboard unchanged. -/
theorem claim_C3_amended (s : GameState) (date : String)
    (hrev : s.reviveToken = false) :
    (GameScene.hitObstacle s date).gameOver = true ∧
    (s.score = 0 → (GameScene.hitObstacle s date).leaderboard = s.leaderboard) ∧
    (0 < s.score → s.leaderboard.length ≤ 99 →
      List.Perm (GameScene.hitObstacle s date).leaderboard
        (s.leaderboard ++ [ScoreManager.mkEntry s.score s.level (some s.username) date])) ∧
    ((GameScene.hitObstacle s date).highScore =
      if s.score > s.highScore then s.score else s.highScore) := by
  have hit : GameScene.hitObstacle s date = GameScene.handleNormalGameOver s date := by
    simp [GameScene.hitObstacle, hrev]
  rw [hit]
  refine ⟨rfl, ?_, ?_, rfl⟩
  · intro h0
    simp [GameScene.handleNormalGameOver, GameScene.saveScoreToLeaderboard, h0]
  · intro hpos hlen
    have hne : ¬ s.score ≤ 0 := by omega
    simp only [GameScene.handleNormalGameOver, GameScene.saveScoreToLeaderboard, if_neg hne]
    exact addToLeaderboard_perm_of_small s.score s.level (some s.username) date hlen

/-- C3 witness: score 45, high score 20, empty board, no revive token: the hit
ends the game, appends the one entry {score 45, level 1}, and raises the high
score to 45. -/
theorem claim_C3_witness :
    gs45.reviveToken = false ∧
    0 < gs45.score ∧
    gs45.leaderboard.length ≤ 99 ∧
    (GameScene.hitObstacle gs45 "1/1/2024").gameOver = true ∧
    List.Perm (GameScene.hitObstacle gs45 "1/1/2024").leaderboard
      ([] ++ [ScoreManager.mkEntry 45 1 (some "bob") "1/1/2024"]) ∧
    (GameScene.hitObstacle gs45 "1/1/2024").highScore = 45 := by
  have h := claim_C3_amended gs45 "1/1/2024" rfl
  refine ⟨rfl, by decide, by decide, h.1, h.2.2.1 (by decide) (by decide), ?_⟩
  rw [h.2.2.2]
  norm_num [gs45, gsBase]

/-- C4: on an obstacle overlap while a revive token is held, the score, high
score and persisted leaderboard are unchanged and the game suspends; the
subsequent explicit revive consumes the token, places the player at the fixed
respawn position (100, 200), resumes the simulation, and a second revive is a
no-op. -/
theorem claim_C4 (s : GameState) (date : String) (h : s.reviveToken = true) :
    (GameScene.hitObstacle s date).score = s.score ∧
    (GameScene.hitObstacle s date).highScore = s.highScore ∧
    (GameScene.hitObstacle s date).leaderboard = s.leaderboard ∧
    (GameScene.hitObstacle s date).gameOver = true ∧
    (GameScene.hitObstacle s date).physicsRunning = false ∧
    (GameScene.hitObstacle s date).spawnTimerPaused = true ∧
    (GameScene.useRevive (GameScene.hitObstacle s date)).reviveToken = false ∧
    (GameScene.useRevive (GameScene.hitObstacle s date)).playerX = PLAYER_START_X ∧
    (GameScene.useRevive (GameScene.hitObstacle s date)).playerY = 200 ∧
    (GameScene.useRevive (GameScene.hitObstacle s date)).gameOver = false ∧
    (GameScene.useRevive (GameScene.hitObstacle s date)).physicsRunning = true ∧
    (GameScene.useRevive (GameScene.hitObstacle s date)).spawnTimerPaused = false ∧
    GameScene.useRevive (GameScene.useRevive (GameScene.hitObstacle s date)) =
      GameScene.useRevive (GameScene.hitObstacle s date) := by
  have hit : GameScene.hitObstacle s date = GameScene.handleReviveGameOver s := by
    simp [GameScene.hitObstacle, h]
  rw [hit]
  refine ⟨rfl, rfl, rfl, rfl, rfl, rfl, ?_, ?_, ?_, ?_, ?_, ?_, ?_⟩ <;>
    simp [GameScene.useRevive, GameScene.handleReviveGameOver, h]

/-- C4 witness: a concrete state holding a revive token keeps its score 45,
high score 50 and empty leaderboard through the hit, and the revive consumes
the token and respawns the player at (100, 200). -/
theorem claim_C4_witness :
    gsTok.reviveToken = true ∧
    (GameScene.hitObstacle gsTok "1/1/2024").score = 45 ∧
    (GameScene.hitObstacle gsTok "1/1/2024").leaderboard = [] ∧
    (GameScene.useRevive (GameScene.hitObstacle gsTok "1/1/2024")).reviveToken = false ∧
    (GameScene.useRevive (GameScene.hitObstacle gsTok "1/1/2024")).playerX = 100 ∧
    (GameScene.useRevive (GameScene.hitObstacle gsTok "1/1/2024")).playerY = 200 := by
  have h := claim_C4 gsTok "1/1/2024" rfl
  exact ⟨rfl, h.1, h.2.2.1, h.2.2.2.2.2.2.1, h.2.2.2.2.2.2.2.1, h.2.2.2.2.2.2.2.2.1⟩

/-- C5: starting a game resets the score to 0, each ordinary-coin collection
adds exactly `SCORE_PER_COIN` (10) points, and after collecting N ordinary
coins with no other scoring events the score is N * 10. -/
theorem claim_C5 (s : GameState) (n : ℕ) :
    (GameScene.startGame s).score = 0 ∧
    (∀ t : GameState,
      (GameScene.collectCoin t CoinKind.ordinary).score = t.score + SCORE_PER_COIN) ∧
    (GameScene.collectOrdinaryCoins n (GameScene.startGame s)).score = n * SCORE_PER_COIN := by
  have hstart : (GameScene.startGame s).score = 0 := by
    simp only [GameScene.startGame, GameScene.performStartGame]
    split <;> rfl
  refine ⟨hstart, ?_, ?_⟩
  · intro t
    exact score_collectCoin t CoinKind.ordinary
  · rw [score_collectOrdinaryCoins, hstart, Nat.zero_add]

/-- C6: the revive token is a single boolean that does not stack, and at most
one revive coin spawns per level: `spawnCoin` yields a revive coin only while
the per-level flag is unset and sets the flag at once; the flag survives coin
collection, revive granting, obstacle hits, revives and further spawns, and
an update tick clears it only by increasing the level. -/
theorem claim_C6 :
    (∀ s : GameState, (GameScene.grantRevivePowerUp s).reviveToken = true ∧
      GameScene.grantRevivePowerUp (GameScene.grantRevivePowerUp s) =
        GameScene.grantRevivePowerUp s) ∧
    (∀ (s : GameState) (roll : ℕ), s.reviveGivenThisLevel = true →
      (GameScene.spawnCoin s roll).2 = CoinKind.ordinary ∧
      (GameScene.spawnCoin s roll).1 = s) ∧
    (∀ (s : GameState) (roll : ℕ), (GameScene.spawnCoin s roll).2 = CoinKind.revive →
      s.reviveGivenThisLevel = false ∧
      (GameScene.spawnCoin s roll).1.reviveGivenThisLevel = true) ∧
    (∀ (s : GameState) (k : CoinKind), s.reviveGivenThisLevel = true →
      (GameScene.collectCoin s k).reviveGivenThisLevel = true) ∧
    (∀ (s : GameState) (date : String), s.reviveGivenThisLevel = true →
      (GameScene.hitObstacle s date).reviveGivenThisLevel = true) ∧
    (∀ s : GameState, s.reviveGivenThisLevel = true →
      (GameScene.useRevive s).reviveGivenThisLevel = true) ∧
    (∀ (s : GameState) (roll : ℕ), s.reviveGivenThisLevel = true →
      (GameScene.spawnCoin s roll).1.reviveGivenThisLevel = true) ∧
    (∀ s : GameState, s.reviveGivenThisLevel = true →
      (GameScene.update s).reviveGivenThisLevel = false →
      s.level < (GameScene.update s).level) := by
  refine ⟨?_, ?_, ?_, ?_, ?_, ?_, ?_, ?_⟩
  · intro s
    exact ⟨rfl, rfl⟩
  · intro s roll h
    constructor <;> simp [GameScene.spawnCoin, h]
  · intro s roll h
    by_cases hc : (!s.reviveGivenThisLevel ∧ roll ≤ REVIVE_CHANCE)
    · refine ⟨?_, ?_⟩
      · simpa using hc.1
      · simp [GameScene.spawnCoin, hc]
    · rw [GameScene.spawnCoin, if_neg hc] at h
      exact absurd h (by simp)
  · intro s k h
    simp only [GameScene.collectCoin, GameScene.grantRevivePowerUp]
    split <;> split <;> simpa using h
  · intro s date h
    simp only [GameScene.hitObstacle, GameScene.handleReviveGameOver,
      GameScene.handleNormalGameOver]
    split <;> simpa using h
  · intro s h
    simp only [GameScene.useRevive]
    split <;> simpa using h
  · intro s roll h
    simp [GameScene.spawnCoin, h]
  · intro s h hcl
    by_cases hguard : (!s.gameStarted || s.gameOver || s.isPaused) = true
    · rw [GameScene.update, if_pos hguard] at hcl
      rw [h] at hcl
      exact absurd hcl (by simp)
    · by_cases hgt : s.score / SCORE_PER_LEVEL + 1 > s.level
      · have hlev : (GameScene.update s).level = s.score / SCORE_PER_LEVEL + 1 := by
          simp [GameScene.update, GameScene.levelUp, hguard, hgt]
        omega
      · have hsame : (GameScene.update s).reviveGivenThisLevel = s.reviveGivenThisLevel := by
          simp [GameScene.update, hguard, hgt]
        rw [hsame, h] at hcl
        exact absurd hcl (by simp)

/-- C6 witness: with the per-level flag set, a spawn with roll 5 yields an
ordinary coin and leaves the state untouched, and granting the power-up twice
equals granting it once. -/
theorem claim_C6_witness :
    gsFlag.reviveGivenThisLevel = true ∧
    (GameScene.spawnCoin gsFlag 5).2 = CoinKind.ordinary ∧
    (GameScene.spawnCoin gsFlag 5).1 = gsFlag ∧
    GameScene.grantRevivePowerUp (GameScene.grantRevivePowerUp gsBase) =
      GameScene.grantRevivePowerUp gsBase :=
  ⟨rfl, (claim_C6.2.1 gsFlag 5 rfl).1, (claim_C6.2.1 gsFlag 5 rfl).2,
   (claim_C6.1 gsBase).2⟩

/-- C7: for every tick of the update loop the speed after the tick is at least
the speed before it: a non-running tick leaves it unchanged, a running tick
adds the fixed positive increment, and a level-up only adds the non-negative
bonus `LEVEL_SPEED_BONUS * (newLevel - 1)` with `newLevel ≥ 1`. -/
theorem claim_C7 (s : GameState) : s.speed ≤ (GameScene.update s).speed := by
  by_cases hguard : (!s.gameStarted || s.gameOver || s.isPaused) = true
  · rw [GameScene.update, if_pos hguard]
  · have hinc : (0 : ℚ) < SPEED_INCREMENT := by norm_num [SPEED_INCREMENT]
    by_cases hgt : s.score / SCORE_PER_LEVEL + 1 > s.level
    · have hspeed : (GameScene.update s).speed = s.speed + SPEED_INCREMENT +
          LEVEL_SPEED_BONUS * (((s.score / SCORE_PER_LEVEL + 1 : ℕ) : ℚ) - 1) := by
        simp [GameScene.update, GameScene.levelUp, hguard, hgt]
      rw [hspeed]
      have hone : (1 : ℚ) ≤ ((s.score / SCORE_PER_LEVEL + 1 : ℕ) : ℚ) := by
        exact_mod_cast Nat.le_add_left 1 (s.score / SCORE_PER_LEVEL)
      have hbonus : (0 : ℚ) ≤
          LEVEL_SPEED_BONUS * (((s.score / SCORE_PER_LEVEL + 1 : ℕ) : ℚ) - 1) := by
        have h20 : (0 : ℚ) ≤ LEVEL_SPEED_BONUS := by norm_num [LEVEL_SPEED_BONUS]
        exact mul_nonneg h20 (by linarith)
      linarith
    · have hspeed : (GameScene.update s).speed = s.speed + SPEED_INCREMENT := by
        simp [GameScene.update, hguard, hgt]
      rw [hspeed]
      linarith

/-- C7 has no hypotheses, but the concrete bound is still checkable: one tick
from the base state raises the speed. -/
theorem claim_C7_witness : gsBase.speed ≤ (GameScene.update gsBase).speed :=
  claim_C7 gsBase

end EndlessRunner
